import Mathlib

/-!
Shallow embedding of the "Submarine Adventure" runner game
(`src/unnamed/part_000`, the most evolved version of the component; the
claim-relevant function bodies of `src/src/components/DinoGame.tsx` are
identical up to the constants).  Positions, velocities and times are modelled
as exact rationals, scores as naturals.  Rendering, asset loading and the
browser event plumbing are outside the model; each game function below is a
direct translation of the correspondingly named closure in the source.
-/

/-! ### Constants (src/unnamed/part_000, lines 4-13 and canvas setup) -/

def GRAVITY : ℚ := 6/10

def INITIAL_JUMP_FORCE : ℚ := -15

def INITIAL_OBSTACLE_SPEED : ℚ := 4

def INITIAL_OBSTACLE_INTERVAL : ℚ := 2000

def GROUND_HEIGHT : ℚ := 20

def POWERUP_INTERVAL : ℚ := 10000

def SPEED_INCREASE_THRESHOLD : ℕ := 1000

def SPEED_INCREASE_AMOUNT : ℚ := 1/2

def INTERVAL_DECREASE_AMOUNT : ℚ := 100

def JUMP_FORCE_DECREASE : ℚ := 3/10

def canvasWidth : ℚ := 800

def canvasHeight : ℚ := 400

/-! ### Data model -/

/-- Inner hitbox: offset plus size, relative to the top-left corner of the
sprite. -/
structure Box where
  x : ℚ
  y : ℚ
  width : ℚ
  height : ℚ
deriving DecidableEq

/-- Player sprite state (`interface Dino`). -/
structure Dino where
  x : ℚ
  y : ℚ
  width : ℚ
  height : ℚ
  dy : ℚ
  isJumping : Bool
  collisionBox : Box
deriving DecidableEq

/-- Obstacle state (`interface Obstacle`). -/
structure Obstacle where
  x : ℚ
  y : ℚ
  width : ℚ
  height : ℚ
  collisionBox : Box
  imageIndex : ℕ
deriving DecidableEq

/-- Power-up state (`interface PowerUp`). -/
structure PowerUp where
  x : ℚ
  y : ℚ
  width : ℚ
  height : ℚ
  collected : Bool
deriving DecidableEq

/-- A leaderboard row (`interface LeaderboardEntry`). -/
structure LeaderboardEntry where
  name : String
  score : ℕ
  date : String
deriving DecidableEq

/-- An axis-aligned rectangle in screen coordinates, as built inside
`checkCollision` / `checkPowerUpCollision`. -/
structure Rect where
  left : ℚ
  right : ℚ
  top : ℚ
  bottom : ℚ
deriving DecidableEq

/-! ### Difficulty scaling (inlined in `updateObstacles` / `handleJump`) -/

/-- Difficulty level `Math.floor(localScore / SPEED_INCREASE_THRESHOLD)`;
natural division is the floor since the score is a natural number. -/
def speedLevel (score : ℕ) : ℕ := score / SPEED_INCREASE_THRESHOLD

/-- Scroll speed `INITIAL_OBSTACLE_SPEED + (speedLevel * SPEED_INCREASE_AMOUNT)`. -/
def currentSpeed (score : ℕ) : ℚ :=
  INITIAL_OBSTACLE_SPEED + (speedLevel score : ℚ) * SPEED_INCREASE_AMOUNT

/-- Spawn interval
`Math.max(INITIAL_OBSTACLE_INTERVAL - (speedLevel * INTERVAL_DECREASE_AMOUNT), 1000)`. -/
def currentInterval (score : ℕ) : ℚ :=
  max (INITIAL_OBSTACLE_INTERVAL - (speedLevel score : ℚ) * INTERVAL_DECREASE_AMOUNT) 1000

/-- Jump impulse `INITIAL_JUMP_FORCE + (speedLevel * JUMP_FORCE_DECREASE)`. -/
def currentJumpForce (score : ℕ) : ℚ :=
  INITIAL_JUMP_FORCE + (speedLevel score : ℚ) * JUMP_FORCE_DECREASE

/-! ### Hitboxes and the overlap test -/

/-- Screen-space hitbox of the dino, as computed in `checkCollision`. -/
def dinoRect (d : Dino) : Rect :=
  { left := d.x + d.collisionBox.x
    right := d.x + d.collisionBox.x + d.collisionBox.width
    top := d.y + d.collisionBox.y
    bottom := d.y + d.collisionBox.y + d.collisionBox.height }

/-- Screen-space hitbox of an obstacle, as computed in `checkCollision`
(vertical extent derived from the draw position at the ground line). -/
def obsRect (o : Obstacle) : Rect :=
  { left := o.x + o.collisionBox.x
    right := o.x + o.collisionBox.x + o.collisionBox.width
    top := canvasHeight - GROUND_HEIGHT - o.height + o.collisionBox.y
    bottom := canvasHeight - GROUND_HEIGHT - o.height + o.collisionBox.y + o.collisionBox.height }

/-- Screen-space box of a power-up, as computed in `checkPowerUpCollision`
(power-ups use their full bounds, they carry no inner hitbox). -/
def powerUpRect (p : PowerUp) : Rect :=
  { left := p.x, right := p.x + p.width, top := p.y, bottom := p.y + p.height }

/-- The four-way strict comparison used by both collision routines. -/
def rectOverlap (a b : Rect) : Bool :=
  decide (a.left < b.right) && decide (a.right > b.left) &&
    decide (a.top < b.bottom) && decide (a.bottom > b.top)

/-- Function `checkCollision`: scan the obstacle list for a hitbox overlap
with the dino; `List.any` short-circuits on the first match like the `for`
loop in the source. -/
def checkCollision (d : Dino) (obstacles : List Obstacle) : Bool :=
  obstacles.any fun o => rectOverlap (dinoRect d) (obsRect o)

/-! ### Per-tick entity updates -/

/-- Function `updateDino`: apply gravity to the velocity, advance the
position by the post-increment velocity, and clamp to the ground line on
landing. -/
def updateDino (d : Dino) : Dino :=
  if d.isJumping then
    let dy' := d.dy + GRAVITY
    let y' := d.y + dy'
    if y' ≥ canvasHeight - GROUND_HEIGHT - d.height then
      { d with y := canvasHeight - GROUND_HEIGHT - d.height, isJumping := false, dy := 0 }
    else
      { d with y := y', dy := dy' }
  else d

/-- The obstacle literal pushed by `updateObstacles`. -/
def newObstacle (rix : ℕ) : Obstacle :=
  { x := canvasWidth
    y := canvasHeight - GROUND_HEIGHT - 60
    width := 60
    height := 60
    collisionBox := { x := 5, y := 5, width := 50, height := 50 }
    imageIndex := rix }

/-- Spawn step of `updateObstacles`: push a new obstacle when the elapsed
time exceeds the current interval; returns (obstacles, lastObstacleTime,
rock-image index). -/
def spawnObstacles (now lastObstacleTime : ℚ) (score : ℕ) (rix : ℕ)
    (obstacles : List Obstacle) : List Obstacle × ℚ × ℕ :=
  if now - lastObstacleTime > currentInterval score then
    (obstacles ++ [newObstacle rix], now, (rix + 1) % 3)
  else
    (obstacles, lastObstacleTime, rix)

/-- Movement step of `updateObstacles`: `obs.x -= currentSpeed` for every
obstacle. -/
def moveObstacles (score : ℕ) (l : List Obstacle) : List Obstacle :=
  l.map fun o => { o with x := o.x - currentSpeed score }

/-- Function `updateObstacles`: spawn, then move every obstacle left, then
drop the ones whose right edge has passed the left boundary. -/
def updateObstacles (now lastObstacleTime : ℚ) (score : ℕ) (rix : ℕ)
    (obstacles : List Obstacle) : List Obstacle × ℚ × ℕ :=
  let sp := spawnObstacles now lastObstacleTime score rix obstacles
  ((moveObstacles score sp.1).filter (fun o => decide (o.x + o.width > 0)), sp.2.1, sp.2.2)

/-- Spawn step of `updatePowerUps`; `rand` stands for the `Math.random()`
sample of that tick.  Returns (power-ups, lastPowerUpTime). -/
def spawnPowerUp (now lastPowerUpTime rand : ℚ) (d : Dino)
    (ps : List PowerUp) : List PowerUp × ℚ :=
  if now - lastPowerUpTime > POWERUP_INTERVAL then
    let maxHeight := canvasHeight - GROUND_HEIGHT - d.height - 50
    let minHeight := canvasHeight - GROUND_HEIGHT - d.height
    (ps ++ [{ x := canvasWidth
              y := rand * (maxHeight - minHeight) + minHeight
              width := 30
              height := 30
              collected := false }], now)
  else
    (ps, lastPowerUpTime)

/-- Movement step of `updatePowerUps`: only uncollected power-ups move. -/
def movePowerUps (score : ℕ) (ps : List PowerUp) : List PowerUp :=
  ps.map fun p => if p.collected then p else { p with x := p.x - currentSpeed score }

/-- Function `updatePowerUps`: spawn, move the uncollected ones, drop the
off-screen ones. -/
def updatePowerUps (now lastPowerUpTime rand : ℚ) (score : ℕ) (d : Dino)
    (ps : List PowerUp) : List PowerUp × ℚ :=
  let sp := spawnPowerUp now lastPowerUpTime rand d ps
  ((movePowerUps score sp.1).filter (fun p => decide (p.x + p.width > 0)), sp.2)

/-- Function `checkPowerUpCollision`: walk the list, skip collected
power-ups, and on
the first hitbox overlap mark it collected, add 100 to the score and return
`true`; the source mutates the list element in place and the list itself
keeps the same members.  Returns (power-ups, score, hit?). -/
def checkPowerUpCollision (d : Dino) (score : ℕ) :
    List PowerUp → List PowerUp × ℕ × Bool
  | [] => ([], score, false)
  | p :: ps =>
    if p.collected then
      let r := checkPowerUpCollision d score ps
      (p :: r.1, r.2.1, r.2.2)
    else if rectOverlap (dinoRect d) (powerUpRect p) then
      ({ p with collected := true } :: ps, score + 100, true)
    else
      let r := checkPowerUpCollision d score ps
      (p :: r.1, r.2.1, r.2.2)

/-- Function `handleJump`, specialised to a key event that matched
Space/ArrowUp: the body runs only when the dino is grounded and the session
is running. -/
def handleJump (isRunning : Bool) (score : ℕ) (d : Dino) : Dino :=
  if !d.isJumping && isRunning then
    { d with dy := currentJumpForce score, isJumping := true }
  else d

/-! ### The simulation loop -/

/-- Mutable session state captured by the `loop` closure, plus the React
flags it writes (`isRunning`, `gameOver`). -/
structure GameState where
  dino : Dino
  obstacles : List Obstacle
  powerUps : List PowerUp
  lastObstacleTime : ℚ
  lastPowerUpTime : ℚ
  rockIndex : ℕ
  score : ℕ
  isRunning : Bool
  gameOver : Bool
deriving DecidableEq

/-- One invocation of `loop` (drawing elided): when running, update the dino,
the obstacles and the power-ups, process a power-up collection, then either
end the session on an obstacle collision (no reschedule, score frozen) or
increment the score and reschedule.  The returned `Bool` is whether
`requestAnimationFrame` is called again. -/
def tick (now rand : ℚ) (s : GameState) : GameState × Bool :=
  if s.isRunning then
    let d := updateDino s.dino
    let ou := updateObstacles now s.lastObstacleTime s.score s.rockIndex s.obstacles
    let pu := updatePowerUps now s.lastPowerUpTime rand s.score d s.powerUps
    let pc := checkPowerUpCollision d s.score pu.1
    if checkCollision d ou.1 then
      ({ s with dino := d, obstacles := ou.1, lastObstacleTime := ou.2.1,
                rockIndex := ou.2.2, powerUps := pc.1, lastPowerUpTime := pu.2,
                score := pc.2.1, isRunning := false, gameOver := true }, false)
    else
      ({ s with dino := d, obstacles := ou.1, lastObstacleTime := ou.2.1,
                rockIndex := ou.2.2, powerUps := pc.1, lastPowerUpTime := pu.2,
                score := pc.2.1 + 1 }, true)
  else
    (s, true)

/-! ### Leaderboard -/

/-- Descending-by-score order used by the sort comparator
`(a, b) => b.score - a.score`. -/
def scoreDesc (a b : LeaderboardEntry) : Prop := b.score ≤ a.score

instance : DecidableRel scoreDesc := fun a b => Nat.decLe b.score a.score

instance : IsTotal LeaderboardEntry scoreDesc :=
  ⟨fun a b => (Nat.le_total b.score a.score).elim Or.inl Or.inr⟩

instance : IsTrans LeaderboardEntry scoreDesc :=
  ⟨fun _ _ _ hab hbc => Nat.le_trans hbc hab⟩

/-- JS `String.prototype.trim`: strip leading and trailing whitespace.
Written structurally over the character list so that it evaluates inside the
kernel (`String.trim` is defined by well-founded recursion and does not). -/
def jsTrim (s : String) : String :=
  ⟨((s.data.dropWhile Char.isWhitespace).reverse.dropWhile Char.isWhitespace).reverse⟩

/-- Function `handleSubmitScore`: ignore blank names, otherwise append the
new entry,
stable-sort descending by score (JS `Array.prototype.sort` is stable;
`List.insertionSort` keeps ties in insertion order the same way) and keep the
top 10. -/
def handleSubmitScore (leaderboard : List LeaderboardEntry) (playerName : String)
    (score : ℕ) (today : String) : List LeaderboardEntry :=
  if jsTrim playerName = "" then leaderboard
  else
    ((leaderboard ++
        [({ name := playerName, score := score, date := today } : LeaderboardEntry)]).insertionSort
      scoreDesc).take 10

/-- Wording of the spec for `Scoreboard.submit` ("appends a new entry with the
current date, re-sorts descending by score, truncates to the top 10 ... ties
broken by insertion order (stable sort)"), written without the blank-name
guard of the source, for comparison with `handleSubmitScore`. -/
def submitSpec (leaderboard : List LeaderboardEntry) (playerName : String)
    (score : ℕ) (today : String) : List LeaderboardEntry :=
  ((leaderboard ++
      [({ name := playerName, score := score, date := today } : LeaderboardEntry)]).insertionSort
    scoreDesc).take 10

/-! ### Concrete states used by the counterexamples and witnesses -/

/-- A running state whose obstacle and power-up both overlap the dino hitbox
after the movement of this tick: the obstacle at x = 104 moves to x = 100
(hitbox 105..155 horizontally, 325..375 vertically, against the dino hitbox
70..130 x 295..365), and the power-up at x = 104 moves to x = 100
(box 100..130 x 300..330). -/
def collisionState : GameState :=
  { dino := ⟨50, 280, 100, 100, 0, false, ⟨20, 15, 60, 70⟩⟩
    obstacles := [⟨104, 320, 60, 60, ⟨5, 5, 50, 50⟩, 0⟩]
    powerUps := [⟨104, 300, 30, 30, false⟩]
    lastObstacleTime := 0
    lastPowerUpTime := 0
    rockIndex := 0
    score := 500
    isRunning := true
    gameOver := false }

/-- A running state with no obstacles and one uncollected power-up that the
dino collects on the next tick (the power-up moves from x = 104 to x = 100,
box 100..130 x 300..330, inside the dino hitbox 70..130 x 295..365). -/
def collectState : GameState :=
  { dino := ⟨50, 280, 100, 100, 0, false, ⟨20, 15, 60, 70⟩⟩
    obstacles := []
    powerUps := [⟨104, 300, 30, 30, false⟩]
    lastObstacleTime := 0
    lastPowerUpTime := 0
    rockIndex := 0
    score := 500
    isRunning := true
    gameOver := false }

/-- Same shape of state as `collectState`, kept separate so that the session
continuation property of C7 has its own concrete input. -/
def continueState : GameState :=
  { dino := ⟨50, 280, 100, 100, 0, false, ⟨20, 15, 60, 70⟩⟩
    obstacles := []
    powerUps := [⟨104, 300, 30, 30, false⟩]
    lastObstacleTime := 0
    lastPowerUpTime := 0
    rockIndex := 0
    score := 500
    isRunning := true
    gameOver := false }

/-! ### Helper lemmas -/

/-- One pass of `checkPowerUpCollision` either leaves the score unchanged or
adds exactly the 100-point bonus. -/
lemma checkPowerUpCollision_score_cases (d : Dino) (score : ℕ) (ps : List PowerUp) :
    (checkPowerUpCollision d score ps).2.1 = score ∨
    (checkPowerUpCollision d score ps).2.1 = score + 100 := by
  induction ps with
  | nil => exact Or.inl rfl
  | cons p ps ih =>
    simp only [checkPowerUpCollision]
    split
    · exact ih
    · split
      · exact Or.inr rfl
      · exact ih

/-- A pass of `checkPowerUpCollision` never removes or adds elements: the
returned list has the length of the input list. -/
lemma checkPowerUpCollision_length (d : Dino) (score : ℕ) (ps : List PowerUp) :
    (checkPowerUpCollision d score ps).1.length = ps.length := by
  induction ps with
  | nil => rfl
  | cons p ps ih =>
    simp only [checkPowerUpCollision]
    split
    · simpa using ih
    · split
      · simp
      · simpa using ih

/-! ### Claims -/

/-- C1: the player-vs-obstacle test `checkCollision` reports a collision iff
some obstacle whose inner hitbox strictly overlaps the dino inner hitbox on
both axes exists (left1 < right2, right1 > left2, top1 < bottom2,
bottom1 > top2); the rectangle test `rectOverlap` is symmetric in its two
arguments; and rectangles whose edges merely touch (right1 = left2) are never
reported as colliding. -/
theorem checkCollision_iff_strict_overlap :
    (∀ (d : Dino) (obstacles : List Obstacle),
      checkCollision d obstacles = true ↔
        ∃ o ∈ obstacles,
          (dinoRect d).left < (obsRect o).right ∧ (obsRect o).left < (dinoRect d).right ∧
            (dinoRect d).top < (obsRect o).bottom ∧ (obsRect o).top < (dinoRect d).bottom) ∧
    (∀ a b : Rect, rectOverlap a b = rectOverlap b a) ∧
    (∀ a b : Rect, a.right = b.left → rectOverlap a b = false) := by
  refine ⟨?_, ?_, ?_⟩
  · intro d obstacles
    simp only [checkCollision, List.any_eq_true, rectOverlap, Bool.and_eq_true,
      decide_eq_true_eq, gt_iff_lt, and_assoc]
  · intro a b
    have h : ∀ x y : Rect, rectOverlap x y =
        decide (((x.left < y.right ∧ x.right > y.left) ∧ x.top < y.bottom) ∧ x.bottom > y.top) := by
      intro x y
      simp [rectOverlap, Bool.decide_and]
    rw [h, h]
    exact decide_eq_decide.mpr (by simp only [gt_iff_lt]; tauto)
  · intro a b hab
    simp [rectOverlap, hab, lt_irrefl]

/-- Witness for C1: two rectangles touching along a vertical edge are not
reported as colliding. -/
theorem checkCollision_iff_strict_overlap_witness :
    rectOverlap ⟨0, 10, 0, 10⟩ ⟨10, 20, 0, 10⟩ = false :=
  checkCollision_iff_strict_overlap.2.2 ⟨0, 10, 0, 10⟩ ⟨10, 20, 0, 10⟩ rfl

/-- C2 counterexample: a submit whose name is all whitespace appends nothing,
so the claim that every submitted (name, score) appends an entry fails at the
concrete input (prior leaderboard [], name " ", score 5). -/
theorem handleSubmitScore_blank_name_cex :
    handleSubmitScore [] " " 5 "2024-01-01" = [] ∧
    submitSpec [] " " 5 "2024-01-01" = [⟨" ", 5, "2024-01-01"⟩] ∧
    ([] : List LeaderboardEntry) ≠ [(⟨" ", 5, "2024-01-01"⟩ : LeaderboardEntry)] := by
  refine ⟨by with_unfolding_all decide, by with_unfolding_all decide, by decide⟩

/-- C2 (amended to submits whose trimmed name is non-blank): the submit
appends the new entry with the given date, stable-sorts descending by score
and truncates to 10 (it equals the operation worded by the spec), and the
result always has length at most 10 and is sorted descending by score. -/
theorem handleSubmitScore_sorted_top10 (lb : List LeaderboardEntry) (name : String)
    (score : ℕ) (today : String) (h : jsTrim name ≠ "") :
    handleSubmitScore lb name score today = submitSpec lb name score today ∧
    (handleSubmitScore lb name score today).length ≤ 10 ∧
    List.Sorted scoreDesc (handleSubmitScore lb name score today) := by
  have he : handleSubmitScore lb name score today = submitSpec lb name score today := by
    unfold handleSubmitScore submitSpec
    rw [if_neg h]
  refine ⟨he, ?_, ?_⟩
  · rw [he]
    exact List.length_take_le 10 _
  · rw [he]
    exact List.Pairwise.sublist (List.take_sublist 10 _) (List.sorted_insertionSort scoreDesc _)

/-- Witness for C2: a concrete submit with a non-blank name. -/
theorem handleSubmitScore_sorted_top10_witness :
    handleSubmitScore [⟨"a", 3, "d"⟩] "bob" 7 "e" = submitSpec [⟨"a", 3, "d"⟩] "bob" 7 "e" ∧
    (handleSubmitScore [⟨"a", 3, "d"⟩] "bob" 7 "e").length ≤ 10 ∧
    List.Sorted scoreDesc (handleSubmitScore [⟨"a", 3, "d"⟩] "bob" 7 "e") :=
  handleSubmitScore_sorted_top10 _ "bob" 7 "e" (by decide)

/-- C3: for every score, the scroll speed that advances obstacles equals
base speed + floor(score/1000) x 0.5 (and `moveObstacles` shifts every
obstacle by exactly that amount), the spawn interval equals
max(base interval - floor(score/1000) x 100, 1000), and a grounded jump sets
the vertical velocity to base impulse + floor(score/1000) x 0.3, which is
monotone non-decreasing in the score, i.e. less negative (weaker) as the
level rises. -/
theorem difficulty_scaling_formulas (score : ℕ) :
    currentSpeed score = INITIAL_OBSTACLE_SPEED + ((score / 1000 : ℕ) : ℚ) * (1/2) ∧
    currentInterval score =
      max (INITIAL_OBSTACLE_INTERVAL - ((score / 1000 : ℕ) : ℚ) * 100) 1000 ∧
    (∀ d : Dino, d.isJumping = false →
      (handleJump true score d).dy = INITIAL_JUMP_FORCE + ((score / 1000 : ℕ) : ℚ) * (3/10)) ∧
    (∀ s₁ s₂ : ℕ, s₁ ≤ s₂ → currentJumpForce s₁ ≤ currentJumpForce s₂) ∧
    (∀ l : List Obstacle, moveObstacles score l =
      l.map fun o =>
        { o with x := o.x - (INITIAL_OBSTACLE_SPEED + ((score / 1000 : ℕ) : ℚ) * (1/2)) }) := by
  refine ⟨rfl, rfl, ?_, ?_, fun l => rfl⟩
  · intro d hd
    simp [handleJump, hd, currentJumpForce, speedLevel, SPEED_INCREASE_THRESHOLD,
      JUMP_FORCE_DECREASE]
  · intro s₁ s₂ h
    unfold currentJumpForce
    have hl : ((speedLevel s₁ : ℕ) : ℚ) ≤ ((speedLevel s₂ : ℕ) : ℚ) := by
      exact_mod_cast Nat.div_le_div_right (c := SPEED_INCREASE_THRESHOLD) h
    have hmul := mul_le_mul_of_nonneg_right hl
      (by norm_num [JUMP_FORCE_DECREASE] : (0:ℚ) ≤ JUMP_FORCE_DECREASE)
    linarith

/-- Witness for C3 at score 2500 (speed level 2) with a concrete grounded
dino. -/
theorem difficulty_scaling_formulas_witness :
    currentSpeed 2500 = INITIAL_OBSTACLE_SPEED + ((2500 / 1000 : ℕ) : ℚ) * (1/2) ∧
    (handleJump true 2500 ⟨50, 280, 100, 100, 0, false, ⟨20, 15, 60, 70⟩⟩).dy =
      INITIAL_JUMP_FORCE + ((2500 / 1000 : ℕ) : ℚ) * (3/10) ∧
    currentJumpForce 0 ≤ currentJumpForce 2500 :=
  ⟨(difficulty_scaling_formulas 2500).1,
   (difficulty_scaling_formulas 2500).2.2.1 _ rfl,
   (difficulty_scaling_formulas 2500).2.2.2.1 0 2500 (by decide)⟩

/-- C4: on an airborne tick `updateDino` adds exactly the gravity constant to
the vertical velocity and moves the position by the post-increment velocity;
when the new position reaches or passes ground level, the position is clamped
exactly to ground level, the velocity is zeroed, and the jumping flag is
cleared. -/
theorem updateDino_gravity_step (d : Dino) (h : d.isJumping = true) :
    (d.y + (d.dy + GRAVITY) < canvasHeight - GROUND_HEIGHT - d.height →
      updateDino d = { d with dy := d.dy + GRAVITY, y := d.y + (d.dy + GRAVITY) }) ∧
    (d.y + (d.dy + GRAVITY) ≥ canvasHeight - GROUND_HEIGHT - d.height →
      updateDino d = { d with y := canvasHeight - GROUND_HEIGHT - d.height,
                              isJumping := false, dy := 0 }) := by
  constructor
  · intro hlt
    unfold updateDino
    rw [if_pos h, if_neg (not_le.mpr hlt)]
  · intro hge
    unfold updateDino
    rw [if_pos h, if_pos hge]

/-- Witness for C4: one concrete airborne step far above the ground. -/
theorem updateDino_gravity_step_witness :
    updateDino ⟨50, 100, 100, 100, 0, true, ⟨20, 15, 60, 70⟩⟩ =
      ⟨50, 100 + (0 + GRAVITY), 100, 100, 0 + GRAVITY, true, ⟨20, 15, 60, 70⟩⟩ :=
  (updateDino_gravity_step _ rfl).1 (by with_unfolding_all decide)

/-- C5 counterexample: on the collision tick of `collisionState` a power-up
is also collected, so the reported final score is 600, not the 500
accumulated before the tick; the claim that the final score equals the score
accumulated before the collision tick fails there. -/
theorem collision_tick_final_score_cex :
    (tick 0 0 collisionState).1.gameOver = true ∧
    (tick 0 0 collisionState).2 = false ∧
    collisionState.score = 500 ∧
    (tick 0 0 collisionState).1.score = 600 ∧
    (tick 0 0 collisionState).1.score ≠ collisionState.score := by
  refine ⟨by with_unfolding_all decide, by with_unfolding_all decide, rfl,
    by with_unfolding_all decide, by with_unfolding_all decide⟩

/-- C5 (amended): on a tick that detects a player-obstacle collision the loop
does not schedule a next tick, clears the running flag, signals game over,
and reports a final score equal to the pre-tick score plus at most one
100-point power-up bonus collected earlier in that same tick (the per-tick
increment does not occur); moreover a non-running session never changes state
on later ticks. -/
theorem collision_tick_ends_session (now rand : ℚ) (s : GameState)
    (hrun : s.isRunning = true)
    (hcol : checkCollision (updateDino s.dino)
      (updateObstacles now s.lastObstacleTime s.score s.rockIndex s.obstacles).1 = true) :
    (tick now rand s).2 = false ∧
    (tick now rand s).1.isRunning = false ∧
    (tick now rand s).1.gameOver = true ∧
    ((tick now rand s).1.score = s.score ∨ (tick now rand s).1.score = s.score + 100) ∧
    (∀ (n r : ℚ) (s' : GameState), s'.isRunning = false → tick n r s' = (s', true)) := by
  refine ⟨?_, ?_, ?_, ?_, ?_⟩
  · simp [tick, hrun, hcol]
  · simp [tick, hrun, hcol]
  · simp [tick, hrun, hcol]
  · simp only [tick, hrun, hcol, if_true, reduceIte]
    exact checkPowerUpCollision_score_cases _ _ _
  · intro n r s' h
    simp [tick, h]

/-- Witness for C5: the amended statement applied to the concrete
`collisionState`. -/
theorem collision_tick_ends_session_witness :
    (tick 0 0 collisionState).2 = false ∧
    (tick 0 0 collisionState).1.isRunning = false ∧
    (tick 0 0 collisionState).1.gameOver = true ∧
    ((tick 0 0 collisionState).1.score = collisionState.score ∨
      (tick 0 0 collisionState).1.score = collisionState.score + 100) ∧
    (∀ (n r : ℚ) (s' : GameState), s'.isRunning = false → tick n r s' = (s', true)) :=
  collision_tick_ends_session 0 0 collisionState rfl (by with_unfolding_all decide)

/-- C6 counterexample: after the tick of `collectState` in which the single
power-up is collected (the score shows the 100-point bonus plus the per-tick
increment), that power-up is still an element of the power-up list, only
marked collected; so the claim that a collected power-up is removed from the
list fails there. -/
theorem collected_powerup_remains_cex :
    (tick 0 0 collectState).1.powerUps = [⟨100, 300, 30, 30, true⟩] ∧
    (⟨100, 300, 30, 30, true⟩ : PowerUp) ∈ (tick 0 0 collectState).1.powerUps ∧
    (⟨100, 300, 30, 30, true⟩ : PowerUp).collected = true ∧
    (tick 0 0 collectState).1.score = collectState.score + 100 + 1 := by
  refine ⟨by with_unfolding_all decide, by with_unfolding_all decide, rfl,
    by with_unfolding_all decide⟩

/-- C6 (amended): power-ups are dropped only when off-screen — after
`updatePowerUps` every remaining power-up satisfies x + width > 0 — while
collection via `checkPowerUpCollision` only marks the collected flag and
never changes the length of the list. -/
theorem powerUps_pruned_only_offscreen :
    (∀ (now lastP rand : ℚ) (score : ℕ) (d : Dino) (ps : List PowerUp),
      ∀ p ∈ (updatePowerUps now lastP rand score d ps).1, p.x + p.width > 0) ∧
    (∀ (d : Dino) (score : ℕ) (ps : List PowerUp),
      (checkPowerUpCollision d score ps).1.length = ps.length) := by
  constructor
  · intro now lastP rand score d ps p hp
    have hres : (updatePowerUps now lastP rand score d ps).1 =
        (movePowerUps score (spawnPowerUp now lastP rand d ps).1).filter
          (fun q => decide (q.x + q.width > 0)) := rfl
    rw [hres] at hp
    exact of_decide_eq_true (List.mem_filter.mp hp).2
  · exact checkPowerUpCollision_length

/-- Witness for C6: a concrete on-screen survivor and a concrete
length-preserving collection pass. -/
theorem powerUps_pruned_only_offscreen_witness :
    ((⟨2, 300, 30, 30, false⟩ : PowerUp).x + (⟨2, 300, 30, 30, false⟩ : PowerUp).width > 0) ∧
    (checkPowerUpCollision ⟨50, 280, 100, 100, 0, false, ⟨20, 15, 60, 70⟩⟩ 500
        [⟨100, 300, 30, 30, false⟩]).1.length =
      [(⟨100, 300, 30, 30, false⟩ : PowerUp)].length :=
  ⟨powerUps_pruned_only_offscreen.1 0 0 0 0 ⟨50, 280, 100, 100, 0, false, ⟨20, 15, 60, 70⟩⟩
      [⟨6, 300, 30, 30, false⟩] _ (by with_unfolding_all decide),
   powerUps_pruned_only_offscreen.2 _ 500 _⟩

/-- C7: when the dino hitbox overlaps the first not-yet-collected power-up of
the list (every earlier entry being collected or non-overlapping),
`checkPowerUpCollision` marks exactly that power-up collected, adds exactly
100 points, and reports the hit; and a tick without an obstacle collision
keeps the session running and reschedules, so a power-up hit never ends the
session. -/
theorem powerup_hit_bonus_continue :
    (∀ (d : Dino) (score : ℕ) (p : PowerUp) (pre post : List PowerUp),
      p.collected = false →
      rectOverlap (dinoRect d) (powerUpRect p) = true →
      (∀ q ∈ pre, q.collected = true ∨ rectOverlap (dinoRect d) (powerUpRect q) = false) →
      checkPowerUpCollision d score (pre ++ p :: post) =
        (pre ++ { p with collected := true } :: post, score + 100, true)) ∧
    (∀ (now rand : ℚ) (s : GameState),
      s.isRunning = true →
      checkCollision (updateDino s.dino)
        (updateObstacles now s.lastObstacleTime s.score s.rockIndex s.obstacles).1 = false →
      (tick now rand s).2 = true ∧ (tick now rand s).1.isRunning = true ∧
        (tick now rand s).1.gameOver = s.gameOver) := by
  constructor
  · intro d score p pre post hp hov
    induction pre with
    | nil =>
      intro _
      simp [checkPowerUpCollision, hp, hov]
    | cons q pre ih =>
      intro hpre
      have hq := hpre q (List.mem_cons_self q pre)
      have ih' := ih fun x hx => hpre x (List.mem_cons_of_mem q hx)
      by_cases hc : q.collected = true
      · simp only [List.cons_append, checkPowerUpCollision, hc, if_true]
        rw [List.append_eq, ih']
      · rcases hq with hq | hq
        · exact absurd hq hc
        · simp only [List.cons_append, checkPowerUpCollision, hc, if_false, hq,
            Bool.false_eq_true]
          rw [List.append_eq, ih']
  · intro now rand s hrun hcol
    refine ⟨?_, ?_, ?_⟩ <;> simp [tick, hrun, hcol]

/-- Witness for C7: a concrete collection awarding exactly 100 points, and a
concrete collision-free tick that keeps running. -/
theorem powerup_hit_bonus_continue_witness :
    checkPowerUpCollision ⟨50, 280, 100, 100, 0, false, ⟨20, 15, 60, 70⟩⟩ 500
        [⟨100, 300, 30, 30, false⟩] = ([⟨100, 300, 30, 30, true⟩], 600, true) ∧
    (tick 0 0 continueState).2 = true ∧ (tick 0 0 continueState).1.isRunning = true ∧
    (tick 0 0 continueState).1.gameOver = continueState.gameOver :=
  ⟨powerup_hit_bonus_continue.1 _ 500 _ [] [] rfl (by with_unfolding_all decide) (by simp),
   (powerup_hit_bonus_continue.2 0 0 continueState rfl (by with_unfolding_all decide)).1,
   (powerup_hit_bonus_continue.2 0 0 continueState rfl (by with_unfolding_all decide)).2.1,
   (powerup_hit_bonus_continue.2 0 0 continueState rfl (by with_unfolding_all decide)).2.2⟩

/-- C8: after `updateObstacles` every obstacle in the resulting list
satisfies x + width > 0, and any moved obstacle whose right edge has passed
the left boundary is not in the result of that same update. -/
theorem updateObstacles_onscreen (now lastT : ℚ) (score rix : ℕ)
    (obstacles : List Obstacle) :
    (∀ o ∈ (updateObstacles now lastT score rix obstacles).1, o.x + o.width > 0) ∧
    (∀ o ∈ moveObstacles score (spawnObstacles now lastT score rix obstacles).1,
      o.x + o.width ≤ 0 → o ∉ (updateObstacles now lastT score rix obstacles).1) := by
  have hres : (updateObstacles now lastT score rix obstacles).1 =
      (moveObstacles score (spawnObstacles now lastT score rix obstacles).1).filter
        (fun o => decide (o.x + o.width > 0)) := rfl
  constructor
  · intro o ho
    rw [hres] at ho
    exact of_decide_eq_true (List.mem_filter.mp ho).2
  · intro o _ hle
    rw [hres]
    intro hmem
    exact absurd (of_decide_eq_true (List.mem_filter.mp hmem).2) (not_lt.mpr hle)

/-- Witness for C8: with scroll speed 4, an obstacle moved to x = 100
survives and the obstacle moved to x = -104 (right edge -44) is dropped. -/
theorem updateObstacles_onscreen_witness :
    ((⟨100, 320, 60, 60, ⟨5, 5, 50, 50⟩, 0⟩ : Obstacle).x +
        (⟨100, 320, 60, 60, ⟨5, 5, 50, 50⟩, 0⟩ : Obstacle).width > 0) ∧
    (⟨-104, 320, 60, 60, ⟨5, 5, 50, 50⟩, 0⟩ : Obstacle) ∉
      (updateObstacles 0 0 0 0 [⟨104, 320, 60, 60, ⟨5, 5, 50, 50⟩, 0⟩,
        ⟨-100, 320, 60, 60, ⟨5, 5, 50, 50⟩, 0⟩]).1 :=
  ⟨(updateObstacles_onscreen 0 0 0 0 [⟨104, 320, 60, 60, ⟨5, 5, 50, 50⟩, 0⟩,
        ⟨-100, 320, 60, 60, ⟨5, 5, 50, 50⟩, 0⟩]).1 _ (by with_unfolding_all decide),
   (updateObstacles_onscreen 0 0 0 0 [⟨104, 320, 60, 60, ⟨5, 5, 50, 50⟩, 0⟩,
        ⟨-100, 320, 60, 60, ⟨5, 5, 50, 50⟩, 0⟩]).2 _ (by with_unfolding_all decide)
     (by with_unfolding_all decide)⟩

/-- C9: a jump command while airborne is a no-op — `handleJump` returns the
player record unchanged in every field. -/
theorem handleJump_airborne_noop (running : Bool) (score : ℕ) (d : Dino)
    (h : d.isJumping = true) : handleJump running score d = d := by
  simp [handleJump, h]

/-- Witness for C9: a concrete airborne dino is left unchanged. -/
theorem handleJump_airborne_noop_witness :
    handleJump true 0 ⟨50, 100, 100, 100, -3, true, ⟨20, 15, 60, 70⟩⟩ =
      ⟨50, 100, 100, 100, -3, true, ⟨20, 15, 60, 70⟩⟩ :=
  handleJump_airborne_noop true 0 _ rfl

/-- C10: submitting with a name that trims to the empty string is a no-op:
`handleSubmitScore` returns the leaderboard unchanged (the guard also returns
before the persistence write in the source). -/
theorem handleSubmitScore_blank_noop (lb : List LeaderboardEntry) (name : String)
    (score : ℕ) (today : String) (h : jsTrim name = "") :
    handleSubmitScore lb name score today = lb := by
  unfold handleSubmitScore
  rw [if_pos h]

/-- Witness for C10: a whitespace-only name leaves a concrete leaderboard
unchanged. -/
theorem handleSubmitScore_blank_noop_witness :
    handleSubmitScore [⟨"a", 1, "d"⟩] "   " 7 "e" = [⟨"a", 1, "d"⟩] :=
  handleSubmitScore_blank_noop _ "   " 7 "e" (by decide)
